import Mathlib

/-!
Shallow embedding of the ShelfSense point-of-sale core
(`src/server/storage.ts`, `MemStorage`), together with the client
checkout computation (`src/unnamed/part_004`, `calculateTotal` /
`handleCheckout`).

Modelling conventions:
* JS `Map` collections keyed by UUID are modelled as insertion-ordered
  lists; `Map.set` on an existing key replaces in place, on a fresh key
  appends (`setProduct`).
* `randomUUID()` is modelled as an explicit fresh-id argument.
* Decimal money strings (`price`, `totalAmount`, ...) are modelled as
  integers (scaled amounts); the storage layer never does arithmetic on
  them except where shown.
* Timestamps are modelled at calendar-day granularity: `createdAt` is an
  integer day index; the current instant is a `Clock` carrying today's
  day index and 1-based day-of-month (so `new Date(y, m, 1)` is
  `today - (dayOfMonth - 1)`).
* Nullable TS fields are `Option`; the JS truthiness default `x || d`
  becomes `Option.getD` except that a stored `0` is also falsy, which is
  modelled explicitly where the source relies on it (`minStockOr5`).
* Mutating methods return the post-state explicitly.  A thrown exception
  leaves the mutations made so far in place, so each fallible operation
  returns `StoreState × Except String _` where the state component is
  the state at the moment of return or throw.
-/

namespace ShelfSense

/-- Equality of `Except` results is decidable; used to evaluate the
operations on concrete inputs. -/
instance instDecEqExcept {ε α : Type} [DecidableEq ε] [DecidableEq α] :
    DecidableEq (Except ε α) := fun x y =>
  match x, y with
  | Except.error a, Except.error b =>
    if h : a = b then isTrue (by rw [h])
    else isFalse (fun hc => by cases hc; exact h rfl)
  | Except.ok a, Except.ok b =>
    if h : a = b then isTrue (by rw [h])
    else isFalse (fun hc => by cases hc; exact h rfl)
  | Except.error _, Except.ok _ => isFalse (fun hc => by cases hc)
  | Except.ok _, Except.error _ => isFalse (fun hc => by cases hc)

/-- Product row (`src/shared/schema.ts`, `products` table), restricted to
the fields the storage core reads or writes. -/
structure Product where
  id : String
  name : String
  barcode : Option String
  price : Int
  costPrice : Option Int
  category : String
  stock : Option Int
  minStock : Option Int
  isActive : Option Bool
deriving DecidableEq

/-- Insertable product (`insertProductSchema`: `products` minus
`id`/`createdAt`/`updatedAt`). -/
structure InsertProduct where
  name : String
  barcode : Option String
  price : Int
  costPrice : Option Int
  category : String
  stock : Option Int
  minStock : Option Int
  isActive : Option Bool
deriving DecidableEq

/-- `Partial<InsertProduct>`: each field may be absent (outer `none`). -/
structure ProductUpdate where
  name : Option String := none
  barcode : Option (Option String) := none
  price : Option Int := none
  costPrice : Option (Option Int) := none
  category : Option String := none
  stock : Option (Option Int) := none
  minStock : Option (Option Int) := none
  isActive : Option (Option Bool) := none
deriving DecidableEq

/-- One line item of a transaction's `items` JSON array
(`{productId, name, price, quantity}`). -/
structure TransactionItem where
  productId : String
  name : String
  price : Int
  quantity : Int
deriving DecidableEq

/-- Transaction row (`transactions` table). -/
structure Transaction where
  id : String
  transactionNumber : String
  items : List TransactionItem
  totalAmount : Int
  discount : Int
  tax : Int
  paymentMethod : String
  status : String
  createdAt : Int
deriving DecidableEq

/-- Insertable transaction (`insertTransactionSchema`: `transactions`
minus `id`/`createdAt`; `transactionNumber` is overwritten by the store
so it is omitted here as well). -/
structure InsertTransaction where
  items : List TransactionItem
  totalAmount : Int
  discount : Int
  tax : Int
  paymentMethod : String
  status : String
deriving DecidableEq

/-- Inventory movement row (`inventoryMovements` table), without the
generated `id`/`createdAt`. -/
structure InventoryMovement where
  productId : String
  type : String
  quantity : Nat
  previousStock : Int
  newStock : Int
  reason : String
deriving DecidableEq

/-- The mutable state of `MemStorage`: the three entity maps (as
insertion-ordered lists) and the transaction counter. -/
structure StoreState where
  products : List Product
  transactions : List Transaction
  inventoryMovements : List InventoryMovement
  transactionCounter : Nat
deriving DecidableEq

/-- JS `p.stock || 0` (stock is a non-negative-or-absent integer; for an
integer value the `||` default only fires on `0`, which maps to itself). -/
def stockOr0 (p : Product) : Int :=
  p.stock.getD 0

/-- JS `p.minStock || 5`: absent `minStock` defaults to 5, and a stored
`0` is falsy in JS so it also yields 5. -/
def minStockOr5 (p : Product) : Int :=
  match p.minStock with
  | none => 5
  | some m => if m = 0 then 5 else m

/-- `this.products.get(id)` over the list model. -/
def findProduct (ps : List Product) (pid : String) : Option Product :=
  ps.find? (fun p => p.id == pid)

/-- `this.products.set(p.id, p)`: replace in place when the key exists,
append otherwise (JS `Map` insertion-order semantics). -/
def setProduct (ps : List Product) (p : Product) : List Product :=
  if ps.any (fun q => q.id == p.id) then
    ps.map (fun q => if q.id == p.id then p else q)
  else
    ps ++ [p]

/-- `MemStorage.updateStock(productId, quantity)`
(`src/server/storage.ts:233-261`): look the product up, clamp the new
stock at 0, persist it and append one `InventoryMovement`. -/
def updateStock (s : StoreState) (productId : String) (quantity : Int) :
    StoreState × Except String Unit :=
  match findProduct s.products productId with
  | none => (s, Except.error "Product not found")
  | some product =>
    let previousStock : Int := stockOr0 product
    let newStock : Int := max 0 (previousStock + quantity)
    let updated : Product := { product with stock := some newStock }
    let movement : InventoryMovement :=
      { productId := productId
        type := if quantity > 0 then "purchase" else "sale"
        quantity := quantity.natAbs
        previousStock := previousStock
        newStock := newStock
        reason := if quantity > 0 then "Stock added" else "Sale" }
    ({ s with
        products := setProduct s.products updated
        inventoryMovements := s.inventoryMovements ++ [movement] },
      Except.ok ())

/-- `MemStorage.createProduct` (`src/server/storage.ts:203-212`): build
the product from the insert payload plus a fresh id and store it; no
validation of any kind. -/
def createProduct (s : StoreState) (ins : InsertProduct) (freshId : String) :
    StoreState × Product :=
  let product : Product :=
    { id := freshId
      name := ins.name
      barcode := ins.barcode
      price := ins.price
      costPrice := ins.costPrice
      category := ins.category
      stock := ins.stock
      minStock := ins.minStock
      isActive := ins.isActive }
  ({ s with products := setProduct s.products product }, product)

/-- JS spread `{ ...existing, ...updateData }`: fields present in the
update override, the rest (and `id`) are kept. -/
def mergeProduct (p : Product) (u : ProductUpdate) : Product :=
  { p with
    name := u.name.getD p.name
    barcode := u.barcode.getD p.barcode
    price := u.price.getD p.price
    costPrice := u.costPrice.getD p.costPrice
    category := u.category.getD p.category
    stock := u.stock.getD p.stock
    minStock := u.minStock.getD p.minStock
    isActive := u.isActive.getD p.isActive }

/-- `MemStorage.updateProduct` (`src/server/storage.ts:214-227`): merge
the partial update over the existing product; no movement is recorded. -/
def updateProduct (s : StoreState) (id : String) (u : ProductUpdate) :
    StoreState × Except String Product :=
  match findProduct s.products id with
  | none => (s, Except.error "Product not found")
  | some existing =>
    let updated : Product := mergeProduct existing u
    ({ s with products := setProduct s.products updated }, Except.ok updated)

/-- `String(n).padStart(4, '0')`. -/
def padStart4 (str : String) : String :=
  if str.length ≥ 4 then str
  else String.mk (List.replicate (4 - str.length) '0') ++ str

/-- The transaction number format `TXN%04d`
(`src/server/storage.ts:277`). -/
def txnNumber (n : Nat) : String :=
  "TXN" ++ padStart4 (toString n)

/-- The `for (const item of items) await this.updateStock(...)` loop of
`createTransaction`: stop at the first failing item, keeping the state
mutations made so far. -/
def applyItems : StoreState → List TransactionItem → StoreState × Except String Unit
  | s, [] => (s, Except.ok ())
  | s, item :: rest =>
    match updateStock s item.productId (-item.quantity) with
    | (s2, Except.ok ()) => applyItems s2 rest
    | (s2, Except.error e) => (s2, Except.error e)

/-- `MemStorage.createTransaction` (`src/server/storage.ts:273-289`):
build the transaction record (consuming the counter), update stock for
each item, then persist the transaction.  An item failure aborts before
the transaction is stored, but earlier stock updates stay applied. -/
def createTransaction (s : StoreState) (ins : InsertTransaction)
    (freshId : String) (now : Int) : StoreState × Except String Transaction :=
  let tx : Transaction :=
    { id := freshId
      transactionNumber := txnNumber s.transactionCounter
      items := ins.items
      totalAmount := ins.totalAmount
      discount := ins.discount
      tax := ins.tax
      paymentMethod := ins.paymentMethod
      status := ins.status
      createdAt := now }
  let s1 : StoreState := { s with transactionCounter := s.transactionCounter + 1 }
  match applyItems s1 ins.items with
  | (s2, Except.ok ()) =>
    ({ s2 with transactions := s2.transactions ++ [tx] }, Except.ok tx)
  | (s2, Except.error e) => (s2, Except.error e)

/-- The analytics period parameter. -/
inductive Period where
  | daily
  | weekly
  | monthly
deriving DecidableEq

/-- The current instant at day granularity: today's day index and the
1-based day of month (to express `new Date(y, m, 1)`). -/
structure Clock where
  today : Int
  dayOfMonth : Int
deriving DecidableEq

/-- The `switch (period)` computing `startDate`
(`src/server/storage.ts:353-363`): daily = start of today, weekly =
now − 7 days, monthly = first of the current month. -/
def periodStart (c : Clock) : Period → Int
  | Period.daily => c.today
  | Period.weekly => c.today - 7
  | Period.monthly => c.today - (c.dayOfMonth - 1)

/-- `MemStorage.getTransactionsByDateRange`
(`src/server/storage.ts:291-296`): inclusive-bounds filter on
`createdAt`. -/
def transactionsInRange (s : StoreState) (startDate endDate : Int) :
    List Transaction :=
  s.transactions.filter
    (fun t => decide (startDate ≤ t.createdAt) && decide (t.createdAt ≤ endDate))

/-- `reduce((sum, t) => sum + parseFloat(t.totalAmount), 0)`. -/
def sumAmounts (ts : List Transaction) : Int :=
  ts.foldl (fun acc t => acc + t.totalAmount) 0

/-- One entry of `salesTrend`: `{date, amount}` with the date at day
granularity. -/
structure TrendPoint where
  date : Int
  amount : Int
deriving DecidableEq

/-- One `salesTrend` entry for `day`, summing `totalAmount` over the
given (already window-filtered) transactions created on that day
(`src/server/storage.ts:430-441`). -/
def trendPoint (txs : List Transaction) (day : Int) : TrendPoint :=
  { date := day
    amount := sumAmounts (txs.filter (fun t => t.createdAt == day)) }

/-- The analytics result fields the storage core computes that this
development reasons about (`SalesAnalytics` in `src/shared/schema.ts`). -/
structure SalesAnalytics where
  dailySales : Int
  itemsSold : Int
  lowStockItems : Nat
  salesTrend : List TrendPoint
deriving DecidableEq

/-- The low-stock filter of `getSalesAnalytics`
(`src/server/storage.ts:380`): `(p.stock || 0) < (p.minStock || 5)`,
with no `isActive` condition. -/
def lowStockPred (p : Product) : Bool :=
  decide (stockOr0 p < minStockOr5 p)

/-- `MemStorage.getSalesAnalytics` (`src/server/storage.ts:349-452`),
restricted to the fields modelled here.  All aggregates, including the
7-day `salesTrend`, are computed from the period-window-filtered
transaction list `txs`. -/
def getSalesAnalytics (s : StoreState) (c : Clock) (period : Period) :
    SalesAnalytics :=
  let startDate : Int := periodStart c period
  let txs : List Transaction := transactionsInRange s startDate c.today
  let dailySales : Int :=
    sumAmounts (txs.filter (fun t => t.createdAt == c.today))
  let itemsSold : Int :=
    txs.foldl (fun acc t => acc + t.items.foldl (fun a it => a + it.quantity) 0) 0
  let lowStockItems : Nat := (s.products.filter lowStockPred).length
  let salesTrend : List TrendPoint :=
    (List.range 7).map (fun j : Nat => trendPoint txs (c.today - 6 + (j : Int)))
  { dailySales := dailySales
    itemsSold := itemsSold
    lowStockItems := lowStockItems
    salesTrend := salesTrend }

/-- The spec's words for `lowStockItems` (claim C9): count of *active*
products whose stock is below `minStock`, `minStock` defaulting to 5
when unset.  Stated for comparison against `getSalesAnalytics`. -/
def specLowStockItems (s : StoreState) : Nat :=
  (s.products.filter
    (fun p => p.isActive == some true && decide (stockOr0 p < p.minStock.getD 5))).length

/-- Client checkout `calculateSubtotal` (`src/unnamed/part_004:567-569`):
sum of price × quantity over the cart. -/
def calculateSubtotal (items : List TransactionItem) : Int :=
  items.foldl (fun acc it => acc + it.price * it.quantity) 0

/-- Client checkout `calculateTotal` (`src/unnamed/part_004:571-574`):
`max(0, subtotal - discount)`. -/
def calculateTotal (items : List TransactionItem) (discount : Int) : Int :=
  max 0 (calculateSubtotal items - discount)

/-- The `transactionData` built by the client `handleCheckout`
(`src/unnamed/part_004:585-600`): the only caller-side place where
`totalAmount` is computed. -/
def checkoutInsert (items : List TransactionItem) (discount : Int)
    (paymentMethod : String) : InsertTransaction :=
  { items := items
    totalAmount := calculateTotal items discount
    discount := discount
    tax := 0
    paymentMethod := paymentMethod
    status := "completed" }

/-! Concrete states used by counterexamples and witnesses. -/

/-- The empty store (counter starts at 1, as in `MemStorage`; the seed
rows are created through the same `set` operations and are irrelevant to
the properties below). -/
def emptyStore : StoreState :=
  { products := []
    transactions := []
    inventoryMovements := []
    transactionCounter := 1 }

/-- A cola-like product insert used by the concrete scenarios. -/
def colaInsert : InsertProduct :=
  { name := "Cola"
    barcode := some "b1"
    price := 10
    costPrice := some 8
    category := "Beverages"
    stock := some 5
    minStock := some 2
    isActive := some true }

/-- Store holding exactly the cola product under id `p1`. -/
def colaStore : StoreState :=
  (createProduct emptyStore colaInsert "p1").1

/-- The cola product as stored in `colaStore`. -/
def colaProduct : Product :=
  (createProduct emptyStore colaInsert "p1").2

/-- A line item selling one cola. -/
def saleItem : TransactionItem :=
  { productId := "p1", name := "Cola", price := 10, quantity := 1 }

/-- A line item referencing a product id not present in any scenario
store. -/
def ghostItem : TransactionItem :=
  { productId := "zzz", name := "Ghost", price := 1, quantity := 1 }

/-- A well-formed one-item cart insert (totals consistent). -/
def goodIns : InsertTransaction :=
  { items := [saleItem], totalAmount := 10, discount := 0, tax := 0
    paymentMethod := "cash", status := "completed" }

/-- A cart whose only item references a missing product. -/
def missingItemIns : InsertTransaction :=
  { items := [ghostItem], totalAmount := 1, discount := 0, tax := 0
    paymentMethod := "cash", status := "completed" }

/-- A cart with one valid item followed by one missing-product item. -/
def mixedIns : InsertTransaction :=
  { items := [saleItem, ghostItem], totalAmount := 11, discount := 0, tax := 0
    paymentMethod := "cash", status := "completed" }

/-- An empty cart with an out-of-enum payment method. -/
def emptyCartIns : InsertTransaction :=
  { items := [], totalAmount := 5, discount := 0, tax := 0
    paymentMethod := "bitcoin", status := "completed" }

/-- A cart whose caller-supplied `totalAmount` (999) disagrees with the
item computation (10). -/
def wrongTotalIns : InsertTransaction :=
  { items := [saleItem], totalAmount := 999, discount := 0, tax := 0
    paymentMethod := "cash", status := "completed" }

/-- The store after the well-formed sale committed at day 0. -/
def goodTxStore : StoreState :=
  (createTransaction colaStore goodIns "t1" 0).1

/-- The transaction record produced by that sale. -/
def goodTx : Transaction :=
  { id := "t1", transactionNumber := "TXN0001", items := [saleItem]
    totalAmount := 10, discount := 0, tax := 0, paymentMethod := "cash"
    status := "completed", createdAt := 0 }

/-- A partial product update carrying only an absolute stock value. -/
def stockOnlyUpd : ProductUpdate :=
  { stock := some (some 42) }

/-- An inactive product sitting below its minimum stock. -/
def ghostIns : InsertProduct :=
  { name := "Ghost", barcode := none, price := 5, costPrice := none
    category := "Snacks", stock := some 1, minStock := some 5
    isActive := some false }

/-- Store holding only the inactive low-stock product. -/
def inactiveStore : StoreState :=
  (createProduct emptyStore ghostIns "p9").1

/-- Store after inserting a second product with the cola's barcode. -/
def dupStore : StoreState :=
  (createProduct colaStore { colaInsert with name := "Dup" } "p2").1

/-- The store after the well-formed sale committed at day 9. -/
def soldStore : StoreState :=
  (createTransaction colaStore goodIns "t1" 9).1

/-- A clock on day 10, the 3rd of its month. -/
def trendClock : Clock :=
  { today := 10, dayOfMonth := 3 }

/-! General lemmas about the list-backed map operations. -/

theorem findProduct_id {ps : List Product} {pid : String} {p : Product}
    (h : findProduct ps pid = some p) : p.id = pid := by
  have hp := List.find?_some h
  simpa using hp

theorem findProduct_isSome_iff (ps : List Product) (pid : String) :
    (findProduct ps pid).isSome ↔ pid ∈ ps.map (fun p => p.id) := by
  constructor
  · intro h
    obtain ⟨p, hp⟩ := Option.isSome_iff_exists.mp h
    have hmem := List.mem_of_find?_eq_some hp
    have hid := findProduct_id hp
    exact hid ▸ List.mem_map_of_mem (fun q => q.id) hmem
  · intro h
    obtain ⟨p, hmem, hid⟩ := List.mem_map.mp h
    rw [findProduct, List.find?_isSome]
    exact ⟨p, hmem, by simp [hid]⟩

theorem findProduct_eq_none_iff (ps : List Product) (pid : String) :
    findProduct ps pid = none ↔ pid ∉ ps.map (fun p => p.id) := by
  rw [← findProduct_isSome_iff, ← Option.not_isSome_iff_eq_none]

theorem find?_map_replace (ps : List Product) (pid : String) (p2 : Product)
    (hid : p2.id = pid)
    (hsome : (ps.find? (fun q => q.id == pid)).isSome) :
    (ps.map (fun q => if q.id == p2.id then p2 else q)).find?
        (fun q => q.id == pid) = some p2 := by
  induction ps with
  | nil => simp at hsome
  | cons a as ih =>
    simp only [List.map_cons]
    by_cases h : a.id = pid
    · rw [if_pos (by simp [h, hid])]
      rw [List.find?_cons_of_pos _ (by simp [hid])]
    · rw [if_neg (by simp [hid, h])]
      rw [List.find?_cons_of_neg _ (by simp [h])]
      apply ih
      rw [List.find?_cons_of_neg _ (by simp [h])] at hsome
      exact hsome

theorem setProduct_of_found {ps : List Product} {pid : String} {p p2 : Product}
    (h : findProduct ps pid = some p) (hid : p2.id = pid) :
    setProduct ps p2 = ps.map (fun q => if q.id == p2.id then p2 else q) := by
  have hmem := List.mem_of_find?_eq_some h
  have hpid : p.id = pid := findProduct_id h
  have hany : ps.any (fun q => q.id == p2.id) = true := by
    rw [List.any_eq_true]
    exact ⟨p, hmem, by simp [hpid, hid]⟩
  simp [setProduct, hany]

theorem findProduct_setProduct {ps : List Product} {pid : String} {p p2 : Product}
    (h : findProduct ps pid = some p) (hid : p2.id = pid) :
    findProduct (setProduct ps p2) pid = some p2 := by
  rw [setProduct_of_found h hid]
  exact find?_map_replace ps pid p2 hid (by rw [findProduct] at h; simp [h])

theorem setProduct_ids {ps : List Product} {pid : String} {p p2 : Product}
    (h : findProduct ps pid = some p) (hid : p2.id = pid) :
    (setProduct ps p2).map (fun q => q.id) = ps.map (fun q => q.id) := by
  rw [setProduct_of_found h hid, List.map_map]
  apply List.map_congr_left
  intro a _
  by_cases ha : a.id = p2.id
  · simp [ha]
  · simp [ha]

/-! Facts about `updateStock`. -/

theorem updateStock_ids (s : StoreState) (pid : String) (q : Int) :
    (updateStock s pid q).1.products.map (fun p => p.id)
      = s.products.map (fun p => p.id) := by
  cases h : findProduct s.products pid with
  | none => simp [updateStock, h]
  | some p =>
    simp only [updateStock, h]
    exact setProduct_ids h (show p.id = pid from findProduct_id h)

theorem updateStock_transactions (s : StoreState) (pid : String) (q : Int) :
    (updateStock s pid q).1.transactions = s.transactions := by
  cases h : findProduct s.products pid <;> simp [updateStock, h]

theorem updateStock_counter (s : StoreState) (pid : String) (q : Int) :
    (updateStock s pid q).1.transactionCounter = s.transactionCounter := by
  cases h : findProduct s.products pid <;> simp [updateStock, h]

theorem updateStock_ok_of_found {s : StoreState} {pid : String} (q : Int)
    (h : (findProduct s.products pid).isSome) :
    (updateStock s pid q).2 = Except.ok () := by
  cases hf : findProduct s.products pid with
  | none => rw [hf] at h; simp at h
  | some p => simp [updateStock, hf]

/-! Facts about the per-item stock-update loop of `createTransaction`. -/

theorem applyItems_preserves (items : List TransactionItem) :
    ∀ s : StoreState,
      (applyItems s items).1.transactions = s.transactions ∧
      (applyItems s items).1.transactionCounter = s.transactionCounter ∧
      (applyItems s items).1.products.map (fun p => p.id)
        = s.products.map (fun p => p.id) := by
  induction items with
  | nil => intro s; exact ⟨rfl, rfl, rfl⟩
  | cons item rest ih =>
    intro s
    have ht := updateStock_transactions s item.productId (-item.quantity)
    have hc := updateStock_counter s item.productId (-item.quantity)
    have hi := updateStock_ids s item.productId (-item.quantity)
    cases hr : updateStock s item.productId (-item.quantity) with
    | mk s2 r2 =>
      rw [hr] at ht hc hi
      cases r2 with
      | ok u =>
        cases u
        have hstep : applyItems s (item :: rest) = applyItems s2 rest := by
          simp [applyItems, hr]
        obtain ⟨iht, ihc, ihi⟩ := ih s2
        rw [hstep]
        exact ⟨iht.trans ht, ihc.trans hc, ihi.trans hi⟩
      | error e =>
        have hstep : applyItems s (item :: rest) = (s2, Except.error e) := by
          simp [applyItems, hr]
        rw [hstep]
        exact ⟨ht, hc, hi⟩

theorem applyItems_ok (items : List TransactionItem) :
    ∀ s : StoreState,
      (∀ x ∈ items, (findProduct s.products x.productId).isSome) →
      (applyItems s items).2 = Except.ok () := by
  induction items with
  | nil => intro s _; rfl
  | cons item rest ih =>
    intro s hall
    have hhead : (findProduct s.products item.productId).isSome :=
      hall item (List.mem_cons_self item rest)
    have hok := updateStock_ok_of_found (-item.quantity) hhead
    have hi := updateStock_ids s item.productId (-item.quantity)
    cases hr : updateStock s item.productId (-item.quantity) with
    | mk s2 r2 =>
      rw [hr] at hok hi
      cases r2 with
      | ok u =>
        cases u
        have hstep : applyItems s (item :: rest) = applyItems s2 rest := by
          simp [applyItems, hr]
        rw [hstep]
        apply ih s2
        intro x hx
        rw [findProduct_isSome_iff, hi, ← findProduct_isSome_iff]
        exact hall x (List.mem_cons_of_mem item hx)
      | error e => exact absurd hok (by simp)

theorem applyItems_error_split (bad : TransactionItem) (rest : List TransactionItem) :
    ∀ (pre : List TransactionItem) (s : StoreState),
      (∀ x ∈ pre, (findProduct s.products x.productId).isSome) →
      findProduct s.products bad.productId = none →
      applyItems s (pre ++ bad :: rest)
        = ((applyItems s pre).1, Except.error "Product not found") := by
  intro pre
  induction pre with
  | nil =>
    intro s _ hbad
    simp [applyItems, updateStock, hbad]
  | cons a pre ih =>
    intro s hpre hbad
    have hhead : (findProduct s.products a.productId).isSome :=
      hpre a (List.mem_cons_self a pre)
    have hok := updateStock_ok_of_found (-a.quantity) hhead
    have hi := updateStock_ids s a.productId (-a.quantity)
    cases hr : updateStock s a.productId (-a.quantity) with
    | mk s2 r2 =>
      rw [hr] at hok hi
      cases r2 with
      | ok u =>
        cases u
        have hstep : applyItems s ((a :: pre) ++ bad :: rest)
            = applyItems s2 (pre ++ bad :: rest) := by
          simp [applyItems, hr]
        have hstep2 : applyItems s (a :: pre) = applyItems s2 pre := by
          simp [applyItems, hr]
        rw [hstep, hstep2]
        apply ih s2
        · intro x hx
          rw [findProduct_isSome_iff, hi, ← findProduct_isSome_iff]
          exact hpre x (List.mem_cons_of_mem a hx)
        · rw [findProduct_eq_none_iff, hi, ← findProduct_eq_none_iff]
          exact hbad
      | error e => exact absurd hok (by simp)

/-! ### Claim C1 -/

/-- C1: for every product present in the store and every integer delta,
`adjustStock` (implemented as `MemStorage.updateStock`) succeeds and sets
that product's stock to `max 0 (currentStock + delta)`; for a product id
that does not resolve, it fails with the not-found error and leaves the
state — in particular every product's stock — unchanged. -/
theorem adjustStock_clamps_or_not_found (s : StoreState) (pid : String) (q : Int) :
    (∀ p, findProduct s.products pid = some p →
      (updateStock s pid q).2 = Except.ok () ∧
      (findProduct (updateStock s pid q).1.products pid).map Product.stock
        = some (some (max 0 (stockOr0 p + q)))) ∧
    (findProduct s.products pid = none →
      updateStock s pid q = (s, Except.error "Product not found")) := by
  constructor
  · intro p hp
    constructor
    · exact updateStock_ok_of_found q (by rw [hp]; rfl)
    · have hfind : findProduct (updateStock s pid q).1.products pid
          = some { p with stock := some (max 0 (stockOr0 p + q)) } := by
        simp only [updateStock, hp]
        exact findProduct_setProduct hp (show p.id = pid from findProduct_id hp)
      rw [hfind]
      rfl
  · intro h
    simp [updateStock, h]

/-- Witness for C1: in the concrete one-product store, a −3 adjustment
clamps 5 − 3 to 2 and succeeds, while an unknown id fails untouched. -/
theorem adjustStock_clamps_or_not_found_witness :
    ((updateStock colaStore "p1" (-3)).2 = Except.ok () ∧
      (findProduct (updateStock colaStore "p1" (-3)).1.products "p1").map Product.stock
        = some (some (max 0 (stockOr0 colaProduct + (-3))))) ∧
    updateStock colaStore "zzz" 7 = (colaStore, Except.error "Product not found") :=
  ⟨(adjustStock_clamps_or_not_found colaStore "p1" (-3)).1 colaProduct (by decide),
    (adjustStock_clamps_or_not_found colaStore "zzz" 7).2 (by decide)⟩

/-! ### Claim C2 -/

/-- C2: one `adjustStock` call on a present product appends exactly one
`InventoryMovement` whose `previousStock` is the stock before the call,
whose `newStock` is the stock after the call, whose `quantity` is
`abs delta`, and whose `type` is `"purchase"` when `delta > 0` and
`"sale"` otherwise. -/
theorem adjustStock_movement (s : StoreState) (pid : String) (q : Int)
    (p : Product) (h : findProduct s.products pid = some p) :
    (updateStock s pid q).1.inventoryMovements
      = s.inventoryMovements ++
        [{ productId := pid
           type := if q > 0 then "purchase" else "sale"
           quantity := q.natAbs
           previousStock := stockOr0 p
           newStock := max 0 (stockOr0 p + q)
           reason := if q > 0 then "Stock added" else "Sale" }] ∧
    (findProduct (updateStock s pid q).1.products pid).map Product.stock
      = some (some (max 0 (stockOr0 p + q))) := by
  constructor
  · simp [updateStock, h]
  · simp only [updateStock, h]
    rw [@findProduct_setProduct s.products pid p
      { p with stock := some (max 0 (stockOr0 p + q)) } h
      (show p.id = pid from findProduct_id h)]
    rfl

/-- Witness for C2 at the concrete store: a sale of 3 units records
previous stock 5, new stock 2, quantity 3, type `"sale"`. -/
theorem adjustStock_movement_witness :
    (updateStock colaStore "p1" (-3)).1.inventoryMovements
      = colaStore.inventoryMovements ++
        [{ productId := "p1"
           type := if (-3 : Int) > 0 then "purchase" else "sale"
           quantity := (-3 : Int).natAbs
           previousStock := stockOr0 colaProduct
           newStock := max 0 (stockOr0 colaProduct + (-3))
           reason := if (-3 : Int) > 0 then "Stock added" else "Sale" }] ∧
    (findProduct (updateStock colaStore "p1" (-3)).1.products "p1").map Product.stock
      = some (some (max 0 (stockOr0 colaProduct + (-3)))) :=
  adjustStock_movement colaStore "p1" (-3) colaProduct (by decide)

/-! ### Claim C3 -/

/-- C3 counterexample: `createTransaction` persists a caller-supplied
`totalAmount` of 999 although the computation over its own items gives
`max 0 (10·1 − 0) = 10`. -/
theorem totalAmount_not_recomputed_cex :
    ((createTransaction colaStore wrongTotalIns "t1" 0).2.toOption.map
        Transaction.totalAmount) = some 999 ∧
    calculateTotal wrongTotalIns.items wrongTotalIns.discount = 10 ∧
    (999 : Int) ≠ 10 := by decide

/-- C3 amended: the store persists `totalAmount` exactly as given by the
caller, without recomputing or checking it against the items; the
`max 0 (Σ price·qty − discount)` computation happens only in the client
checkout, which fills the insert payload with it. -/
theorem totalAmount_passthrough
    (s : StoreState) (ins : InsertTransaction) (freshId : String) (now : Int)
    (s2 : StoreState) (tx : Transaction)
    (h : createTransaction s ins freshId now = (s2, Except.ok tx)) :
    tx.totalAmount = ins.totalAmount ∧
    ∀ (items : List TransactionItem) (discount : Int) (pm : String),
      (checkoutInsert items discount pm).totalAmount = calculateTotal items discount := by
  constructor
  · simp only [createTransaction] at h
    cases happly : applyItems
        { s with transactionCounter := s.transactionCounter + 1 } ins.items with
    | mk s3 r3 =>
      rw [happly] at h
      cases r3 with
      | ok u =>
        cases u
        have h2 := congrArg Prod.snd h
        simp only at h2
        injection h2 with h3
        rw [← h3]
      | error e =>
        have h2 := congrArg Prod.snd h
        simp at h2
  · intro items discount pm
    rfl

/-- Witness for the amended C3 at the concrete successful sale. -/
theorem totalAmount_passthrough_witness :
    goodTx.totalAmount = goodIns.totalAmount ∧
    ∀ (items : List TransactionItem) (discount : Int) (pm : String),
      (checkoutInsert items discount pm).totalAmount = calculateTotal items discount :=
  totalAmount_passthrough colaStore goodIns "t1" 0 goodTxStore goodTx (by decide)

/-! ### Claim C4 -/

/-- C4 counterexample: a transaction with an empty items list and an
unknown payment method is accepted and persisted, where the claim
demands a validation failure with nothing persisted. -/
theorem createTransaction_no_validation_cex :
    (createTransaction colaStore emptyCartIns "t1" 0).2
      = Except.ok
        { id := "t1", transactionNumber := "TXN0001", items := []
          totalAmount := 5, discount := 0, tax := 0
          paymentMethod := "bitcoin", status := "completed", createdAt := 0 } ∧
    (createTransaction colaStore emptyCartIns "t1" 0).1.transactions.length = 1 := by
  decide

/-- C4 amended: `createTransaction` performs no validation at all:
whenever every item references a present product (active or not), the
call succeeds and persists the transaction verbatim — regardless of an
empty items list, non-positive quantities, or the payment method
string.  (Only a missing product reference makes it fail, via the stock
update; see C6.) -/
theorem createTransaction_accepts_unvalidated
    (s : StoreState) (ins : InsertTransaction) (freshId : String) (now : Int)
    (h : ∀ x ∈ ins.items, (findProduct s.products x.productId).isSome) :
    (createTransaction s ins freshId now).2
      = Except.ok
        { id := freshId
          transactionNumber := txnNumber s.transactionCounter
          items := ins.items
          totalAmount := ins.totalAmount
          discount := ins.discount
          tax := ins.tax
          paymentMethod := ins.paymentMethod
          status := ins.status
          createdAt := now } ∧
    (createTransaction s ins freshId now).1.transactions
      = s.transactions ++
        [{ id := freshId
           transactionNumber := txnNumber s.transactionCounter
           items := ins.items
           totalAmount := ins.totalAmount
           discount := ins.discount
           tax := ins.tax
           paymentMethod := ins.paymentMethod
           status := ins.status
           createdAt := now }] := by
  have hok := applyItems_ok ins.items
    { s with transactionCounter := s.transactionCounter + 1 } h
  have hpres := (applyItems_preserves ins.items
    { s with transactionCounter := s.transactionCounter + 1 }).1
  cases happly : applyItems
      { s with transactionCounter := s.transactionCounter + 1 } ins.items with
  | mk s3 r3 =>
    rw [happly] at hok hpres
    simp only at hok
    subst hok
    constructor
    · simp only [createTransaction]
      rw [happly]
    · simp only [createTransaction]
      rw [happly]
      simp only
      rw [hpres]

/-- Witness for the amended C4: the concrete sale (whose only item is
present) succeeds and is persisted. -/
theorem createTransaction_accepts_unvalidated_witness :
    (createTransaction colaStore goodIns "t1" 0).2
      = Except.ok
        { id := "t1"
          transactionNumber := txnNumber colaStore.transactionCounter
          items := goodIns.items
          totalAmount := goodIns.totalAmount
          discount := goodIns.discount
          tax := goodIns.tax
          paymentMethod := goodIns.paymentMethod
          status := goodIns.status
          createdAt := 0 } ∧
    (createTransaction colaStore goodIns "t1" 0).1.transactions
      = colaStore.transactions ++
        [{ id := "t1"
           transactionNumber := txnNumber colaStore.transactionCounter
           items := goodIns.items
           totalAmount := goodIns.totalAmount
           discount := goodIns.discount
           tax := goodIns.tax
           paymentMethod := goodIns.paymentMethod
           status := goodIns.status
           createdAt := 0 }] :=
  createTransaction_accepts_unvalidated colaStore goodIns "t1" 0 (by decide)

/-! ### Claim C6 -/

/-- C6: when the item at position k of the cart references a missing
product id (all earlier items referencing present products), the call
errors, no transaction is persisted, but the stock decrements and
movement appends of the earlier items remain applied: the post-state is
exactly the result of applying the prefix. -/
theorem createTransaction_not_atomic
    (s : StoreState) (ins : InsertTransaction) (freshId : String) (now : Int)
    (pre : List TransactionItem) (bad : TransactionItem) (rest : List TransactionItem)
    (hsplit : ins.items = pre ++ bad :: rest)
    (hpre : ∀ x ∈ pre, (findProduct s.products x.productId).isSome)
    (hbad : findProduct s.products bad.productId = none) :
    createTransaction s ins freshId now
      = ((applyItems { s with transactionCounter := s.transactionCounter + 1 } pre).1,
          Except.error "Product not found") ∧
    (createTransaction s ins freshId now).1.transactions = s.transactions := by
  have herr := applyItems_error_split bad rest pre
    { s with transactionCounter := s.transactionCounter + 1 } hpre hbad
  have hpres := (applyItems_preserves pre
    { s with transactionCounter := s.transactionCounter + 1 }).1
  constructor
  · simp only [createTransaction, hsplit]
    rw [herr]
  · simp only [createTransaction, hsplit]
    rw [herr]
    exact hpres

/-- Witness for C6: a cart [valid cola item, missing item] errors, the
cola stock decrement survives, and no transaction is stored. -/
theorem createTransaction_not_atomic_witness :
    createTransaction colaStore mixedIns "t1" 0
      = ((applyItems
            { colaStore with transactionCounter := colaStore.transactionCounter + 1 }
            [saleItem]).1,
          Except.error "Product not found") ∧
    (createTransaction colaStore mixedIns "t1" 0).1.transactions
      = colaStore.transactions :=
  createTransaction_not_atomic colaStore mixedIns "t1" 0 [saleItem] ghostItem []
    (by decide) (by decide) (by decide)

/-! ### Claim C7 -/

/-- C7 counterexample: a failed call burns `TXN0001` (nothing is
persisted), so the first successfully created transaction of the process
receives `TXN0002`, not `TXN0001`. -/
theorem transactionNumber_cex :
    (createTransaction colaStore missingItemIns "t1" 0).2
      = Except.error "Product not found" ∧
    (createTransaction colaStore missingItemIns "t1" 0).1.transactions = [] ∧
    ((createTransaction (createTransaction colaStore missingItemIns "t1" 0).1
        goodIns "t2" 0).2.toOption.map Transaction.transactionNumber)
      = some "TXN0002" ∧
    "TXN0002" ≠ "TXN0001" := by decide

/-- C7 amended: every `createTransaction` call — successful or failed —
consumes exactly one counter value, and a successful call numbers its
transaction `TXN%04d` of the pre-call counter.  Hence numbers strictly
increase per call and are never reassigned, but a failed call still
consumes a number, so the n-th *successful* transaction can carry a
number greater than n. -/
theorem transactionNumber_per_call
    (s : StoreState) (ins : InsertTransaction) (freshId : String) (now : Int) :
    (createTransaction s ins freshId now).1.transactionCounter
      = s.transactionCounter + 1 ∧
    (∀ s2 tx, createTransaction s ins freshId now = (s2, Except.ok tx) →
      tx.transactionNumber = txnNumber s.transactionCounter) := by
  have hpres := (applyItems_preserves ins.items
    { s with transactionCounter := s.transactionCounter + 1 }).2.1
  cases happly : applyItems
      { s with transactionCounter := s.transactionCounter + 1 } ins.items with
  | mk s3 r3 =>
    rw [happly] at hpres
    constructor
    · cases r3 with
      | ok u =>
        cases u
        simp only [createTransaction]
        rw [happly]
        exact hpres
      | error e =>
        simp only [createTransaction]
        rw [happly]
        exact hpres
    · intro s2 tx h
      simp only [createTransaction] at h
      rw [happly] at h
      cases r3 with
      | ok u =>
        cases u
        have h2 := congrArg Prod.snd h
        simp only at h2
        injection h2 with h3
        rw [← h3]
      | error e =>
        have h2 := congrArg Prod.snd h
        simp at h2

/-- Witness for the amended C7 at the concrete successful sale. -/
theorem transactionNumber_per_call_witness :
    (createTransaction colaStore goodIns "t1" 0).1.transactionCounter
      = colaStore.transactionCounter + 1 ∧
    goodTx.transactionNumber = txnNumber colaStore.transactionCounter :=
  ⟨(transactionNumber_per_call colaStore goodIns "t1" 0).1,
    (transactionNumber_per_call colaStore goodIns "t1" 0).2 goodTxStore goodTx (by decide)⟩

/-! ### Claim C5 -/

/-- C5 counterexample: `updateProduct` — exposed through
`PUT /api/products/:id`, whose schema includes `stock` — sets the cola's
stock from 5 to the absolute value 42 while appending no
`InventoryMovement`. -/
theorem updateProduct_absolute_stock_cex :
    (findProduct colaStore.products "p1").map Product.stock = some (some 5) ∧
    (findProduct (updateProduct colaStore "p1" stockOnlyUpd).1.products "p1").map
        Product.stock = some (some 42) ∧
    (updateProduct colaStore "p1" stockOnlyUpd).1.inventoryMovements
      = colaStore.inventoryMovements ∧
    colaStore.inventoryMovements = [] := by decide

/-- C5 amended: stock mutation is *not* confined to the ledger:
`updateProduct` accepts a `stock` field in its partial update and writes
it as an absolute value onto the product, appending no
`InventoryMovement`; only `updateStock` appends movements. -/
theorem updateProduct_sets_stock_without_movement
    (s : StoreState) (pid : String) (u : ProductUpdate) (p : Product)
    (v : Option Int)
    (hfind : findProduct s.products pid = some p) (hstock : u.stock = some v) :
    (updateProduct s pid u).2 = Except.ok (mergeProduct p u) ∧
    (mergeProduct p u).stock = v ∧
    findProduct (updateProduct s pid u).1.products pid = some (mergeProduct p u) ∧
    (updateProduct s pid u).1.inventoryMovements = s.inventoryMovements := by
  refine ⟨?_, ?_, ?_, ?_⟩
  · simp [updateProduct, hfind]
  · simp [mergeProduct, hstock]
  · simp only [updateProduct, hfind]
    exact findProduct_setProduct hfind (show p.id = pid from findProduct_id hfind)
  · simp [updateProduct, hfind]

/-- Witness for the amended C5 at the concrete store. -/
theorem updateProduct_sets_stock_without_movement_witness :
    (updateProduct colaStore "p1" stockOnlyUpd).2
      = Except.ok (mergeProduct colaProduct stockOnlyUpd) ∧
    (mergeProduct colaProduct stockOnlyUpd).stock = some 42 ∧
    findProduct (updateProduct colaStore "p1" stockOnlyUpd).1.products "p1"
      = some (mergeProduct colaProduct stockOnlyUpd) ∧
    (updateProduct colaStore "p1" stockOnlyUpd).1.inventoryMovements
      = colaStore.inventoryMovements :=
  updateProduct_sets_stock_without_movement colaStore "p1" stockOnlyUpd
    colaProduct (some 42) (by decide) (by decide)

/-! ### Claim C8 -/

/-- C8 counterexample: with one transaction on day 9 worth 10 and period
`daily` on day 10, the trend entry for day 9 reports amount 0, not the
sum (10) over all transactions of that calendar day — the trend depends
on the period window. -/
theorem salesTrend_not_period_independent_cex :
    soldStore.transactions.map Transaction.createdAt = [9] ∧
    sumAmounts (soldStore.transactions.filter (fun t => t.createdAt == 9)) = 10 ∧
    (getSalesAnalytics soldStore trendClock Period.daily).salesTrend[5]?
      = some { date := 9, amount := 0 } ∧
    (0 : Int) ≠ 10 := by decide

/-- C8 amended: `salesTrend` always has exactly 7 entries, oldest to
newest, one per calendar day ending today; but each entry's amount sums
`totalAmount` only over the transactions inside the period window
(`periodStart ≤ createdAt ≤ today`), so the trend does depend on the
period parameter. -/
theorem salesTrend_window
    (s : StoreState) (c : Clock) (period : Period) :
    (getSalesAnalytics s c period).salesTrend.length = 7 ∧
    ∀ j : Nat, j < 7 →
      (getSalesAnalytics s c period).salesTrend[j]?
        = some (trendPoint
            (transactionsInRange s (periodStart c period) c.today)
            (c.today - 6 + (j : Int))) := by
  constructor
  · simp only [getSalesAnalytics]
    rw [List.length_map, List.length_range]
  · intro j hj
    simp only [getSalesAnalytics]
    rw [List.getElem?_map, List.getElem?_range hj, Option.map_some']

/-- Witness for the amended C8: the weekly trend of the concrete store
has 7 entries and its entry 5 covers day 9 over the weekly window. -/
theorem salesTrend_window_witness :
    (getSalesAnalytics soldStore trendClock Period.weekly).salesTrend.length = 7 ∧
    (getSalesAnalytics soldStore trendClock Period.weekly).salesTrend[5]?
      = some (trendPoint
          (transactionsInRange soldStore (periodStart trendClock Period.weekly)
            trendClock.today)
          (trendClock.today - 6 + ((5 : Nat) : Int))) :=
  ⟨(salesTrend_window soldStore trendClock Period.weekly).1,
    (salesTrend_window soldStore trendClock Period.weekly).2 5 (by decide)⟩

/-! ### Claim C9 -/

/-- C9 counterexample: an inactive product with stock 1 below its
minStock 5 is counted by `lowStockItems` (1), while the spec's
active-only count is 0. -/
theorem lowStockItems_counts_inactive_cex :
    (getSalesAnalytics inactiveStore trendClock Period.daily).lowStockItems = 1 ∧
    specLowStockItems inactiveStore = 0 ∧
    (1 : Nat) ≠ 0 := by decide

/-- C9 amended: `lowStockItems` counts *all* products — active or not —
whose stock (0 when unset) is below their minStock, where minStock
defaults to 5 both when unset and when stored as 0; the count is
independent of the period parameter and the clock. -/
theorem lowStockItems_ignores_isActive
    (s : StoreState) (c c2 : Clock) (period period2 : Period) :
    (getSalesAnalytics s c period).lowStockItems
      = (s.products.filter (fun p => decide (stockOr0 p < minStockOr5 p))).length ∧
    (getSalesAnalytics s c period).lowStockItems
      = (getSalesAnalytics s c2 period2).lowStockItems :=
  ⟨rfl, rfl⟩

/-! ### Claim C10 -/

theorem find?_append_none {α : Type} {l1 : List α} (l2 : List α)
    {p : α → Bool} (h : l1.find? p = none) :
    (l1 ++ l2).find? p = l2.find? p := by
  induction l1 with
  | nil => rfl
  | cons a as ih =>
    by_cases ha : p a
    · rw [List.find?_cons_of_pos _ ha] at h
      simp at h
    · rw [List.find?_cons_of_neg _ ha] at h
      rw [List.cons_append, List.find?_cons_of_neg _ ha]
      exact ih h

theorem setProduct_of_not_found {ps : List Product} {p2 : Product}
    (h : findProduct ps p2.id = none) :
    setProduct ps p2 = ps ++ [p2] := by
  have hany : ps.any (fun q => q.id == p2.id) = false := by
    rw [← Bool.not_eq_true, List.any_eq_true]
    rintro ⟨q, hmem, hq⟩
    have hq2 : q.id = p2.id := by simpa using hq
    have : (findProduct ps p2.id).isSome := by
      rw [findProduct_isSome_iff]
      exact hq2 ▸ List.mem_map_of_mem (fun r => r.id) hmem
    rw [h] at this
    simp at this
  simp [setProduct, hany]

/-- C10 counterexample: the cola store holds one product with barcode
`b1`; creating a second product with the same barcode succeeds and both
are stored — no conflict error, and the product count grows. -/
theorem createProduct_duplicate_barcode_cex :
    (colaStore.products.filter (fun p => p.barcode == some "b1")).length = 1 ∧
    dupStore.products.length = 2 ∧
    (dupStore.products.filter (fun p => p.barcode == some "b1")).length = 2 := by
  decide

/-- C10 amended: `MemStorage.createProduct` performs no barcode
uniqueness check: even when an existing product already carries the
requested barcode, the new product is appended under its fresh id and
returned; nothing fails and nothing is rejected.  (Uniqueness is only
declared on the unused SQL table definition.) -/
theorem createProduct_no_barcode_check
    (s : StoreState) (ins : InsertProduct) (freshId : String) (p0 : Product)
    (hp0 : p0 ∈ s.products) (hbar : p0.barcode = ins.barcode)
    (hfresh : findProduct s.products freshId = none) :
    (createProduct s ins freshId).1.products.length = s.products.length + 1 ∧
    (createProduct s ins freshId).2.barcode = ins.barcode ∧
    findProduct (createProduct s ins freshId).1.products freshId
      = some (createProduct s ins freshId).2 := by
  have happ : setProduct s.products (createProduct s ins freshId).2
      = s.products ++ [(createProduct s ins freshId).2] :=
    setProduct_of_not_found hfresh
  refine ⟨?_, rfl, ?_⟩
  · show (setProduct s.products (createProduct s ins freshId).2).length
      = s.products.length + 1
    rw [happ]
    simp
  · show findProduct (setProduct s.products (createProduct s ins freshId).2) freshId
      = some (createProduct s ins freshId).2
    rw [happ, findProduct, find?_append_none _ hfresh]
    simp [List.find?, createProduct]

/-- Witness for the amended C10 at the concrete duplicate-barcode
insertion. -/
theorem createProduct_no_barcode_check_witness :
    (createProduct colaStore { colaInsert with name := "Dup" } "p2").1.products.length
      = colaStore.products.length + 1 ∧
    (createProduct colaStore { colaInsert with name := "Dup" } "p2").2.barcode
      = ({ colaInsert with name := "Dup" } : InsertProduct).barcode ∧
    findProduct
        (createProduct colaStore { colaInsert with name := "Dup" } "p2").1.products
        "p2"
      = some (createProduct colaStore { colaInsert with name := "Dup" } "p2").2 :=
  createProduct_no_barcode_check colaStore { colaInsert with name := "Dup" } "p2"
    colaProduct (by decide) (by decide) (by decide)

end ShelfSense
